import Mathlib

/-!
Verification of the Airzonecloud Home Assistant climate integration
(`custom_components/airzonecloud/climate.py`) against its natural-language
specification.  The integration is a thin adapter: it maps vendor mode
strings to Home Assistant standard HVAC mode strings and forwards commands
to the vendor API objects.  We embed the adapter shallowly: vendor objects
become structures over their consumed attributes, command dispatch becomes
an explicit list of issued vendor commands, and temperatures are rationals.
-/

/-! ## Home Assistant constants (from homeassistant.components.climate.const) -/

def HVAC_MODE_OFF : String := "off"

def HVAC_MODE_HEAT : String := "heat"

def HVAC_MODE_COOL : String := "cool"

def HVAC_MODE_DRY : String := "dry"

def HVAC_MODE_FAN_ONLY : String := "fan_only"

def TEMP_CELSIUS : String := "°C"

def AIRZONECLOUD_HVAC_MODES : List String :=
  [HVAC_MODE_OFF, HVAC_MODE_HEAT, HVAC_MODE_COOL, HVAC_MODE_DRY, HVAC_MODE_FAN_ONLY]

/-- Embedding of `homeassistant.util.temperature.convert`: identity when the
units agree, otherwise the Fahrenheit/Celsius conversion. -/
def convert_temperature (temperature : ℚ) (unit_1 unit_2 : String) : ℚ :=
  if unit_1 = unit_2 then temperature
  else if unit_2 = TEMP_CELSIUS then (temperature - 32) * 5 / 9
  else temperature * 9 / 5 + 32

/-! ## Vendor objects (attributes consumed by the adapter) -/

/-- The vendor `group` object: the attributes the adapter reads. -/
structure AirzoneCloud.Group where
  id : String
  name : String
  is_on : Bool
  mode : String
  min_temperature : ℚ
  max_temperature : ℚ
deriving DecidableEq, Repr

/-- The vendor `device` object: the attributes the adapter reads, including
the reference to its parent `group`. -/
structure AirzoneCloud.Device where
  id : String
  name : String
  group : AirzoneCloud.Group
  is_on : Bool
  mode : String
  current_temperature : Option ℚ
  target_temperature : Option ℚ
  step_temperature : Option ℚ
  min_temperature : ℚ
  max_temperature : ℚ
  current_humidity : Option ℚ
deriving DecidableEq, Repr

/-- Commands the adapter can issue on vendor objects.  `deviceTurnOn` keeps
the `auto_refresh` flag passed in the source. -/
inductive Command where
  | deviceTurnOn (auto_refresh : Bool)
  | deviceTurnOff
  | deviceSetTemperature (t : ℚ)
  | groupSetMode (mode : String)
  | groupTurnOn
  | groupTurnOff
  | groupRefreshDevices
deriving DecidableEq, Repr

/-- Python `round(x, 1)`: round half to even at one decimal place.
`roundHalfEven q` is the nearest integer to `q`, ties to the even one. -/
def roundHalfEven (q : ℚ) : ℤ :=
  if q - ⌊q⌋ < 1/2 then ⌊q⌋
  else if 1/2 < q - ⌊q⌋ then ⌊q⌋ + 1
  else if ⌊q⌋ % 2 = 0 then ⌊q⌋ else ⌊q⌋ + 1

def pyRound1 (q : ℚ) : ℚ := (roundHalfEven (q * 10) : ℚ) / 10

namespace AirzonecloudDevice

/-- `AirzonecloudDevice.temperature_unit`. -/
def temperature_unit (_d : AirzoneCloud.Device) : String := TEMP_CELSIUS

/-- `AirzonecloudDevice.hvac_mode`: the device/group vendor-mode translation
table, gated on the device reporting on. -/
def hvac_mode (d : AirzoneCloud.Device) : String :=
  let mode := d.mode
  if d.is_on then
    if mode ∈ ["cooling", "air-cooling", "radiant-cooling", "combined-cooling"] then
      HVAC_MODE_COOL
    else if mode ∈ ["heating", "air-heating", "radiant-heating", "combined-heating",
        "emergency-heating"] then
      HVAC_MODE_HEAT
    else if mode = "ventilation" then HVAC_MODE_FAN_ONLY
    else if mode = "dehumidify" then HVAC_MODE_DRY
    else HVAC_MODE_OFF
  else HVAC_MODE_OFF

/-- `AirzonecloudDevice.min_temp`: reads `self._device.min_temperature`. -/
def min_temp (d : AirzoneCloud.Device) : ℚ :=
  convert_temperature d.min_temperature TEMP_CELSIUS (temperature_unit d)

/-- `AirzonecloudDevice.max_temp`: reads `self._device.max_temperature`. -/
def max_temp (d : AirzoneCloud.Device) : ℚ :=
  convert_temperature d.max_temperature TEMP_CELSIUS (temperature_unit d)

/-- `AirzonecloudDevice.set_temperature`: the commands it issues.  The
optional argument models `kwargs.get(ATTR_TEMPERATURE)`. -/
def set_temperature (_d : AirzoneCloud.Device) (temperature : Option ℚ) : List Command :=
  match temperature with
  | none => []
  | some t => [Command.deviceSetTemperature (pyRound1 t)]

/-- `AirzonecloudDevice.set_hvac_mode`: the commands it issues, in order. -/
def set_hvac_mode (d : AirzoneCloud.Device) (hvac_mode : String) : List Command :=
  if hvac_mode = HVAC_MODE_OFF then [Command.deviceTurnOff]
  else
    (if !d.is_on then [Command.deviceTurnOn false] else []) ++
    (if hvac_mode = HVAC_MODE_HEAT then [Command.groupSetMode "heating"]
     else if hvac_mode = HVAC_MODE_COOL then [Command.groupSetMode "cooling"]
     else if hvac_mode = HVAC_MODE_DRY then [Command.groupSetMode "dehumidify"]
     else if hvac_mode = HVAC_MODE_FAN_ONLY then [Command.groupSetMode "ventilation"]
     else [])

end AirzonecloudDevice

namespace AirzonecloudGroup

/-- `AirzonecloudGroup.hvac_mode`: same translation table as the device,
reading the group object. -/
def hvac_mode (g : AirzoneCloud.Group) : String :=
  let mode := g.mode
  if g.is_on then
    if mode ∈ ["cooling", "air-cooling", "radiant-cooling", "combined-cooling"] then
      HVAC_MODE_COOL
    else if mode ∈ ["heating", "air-heating", "radiant-heating", "combined-heating",
        "emergency-heating"] then
      HVAC_MODE_HEAT
    else if mode = "ventilation" then HVAC_MODE_FAN_ONLY
    else if mode = "dehumidify" then HVAC_MODE_DRY
    else HVAC_MODE_OFF
  else HVAC_MODE_OFF

/-- `AirzonecloudGroup.set_hvac_mode`: the commands it issues. -/
def set_hvac_mode (_g : AirzoneCloud.Group) (hvac_mode : String) : List Command :=
  if hvac_mode = HVAC_MODE_OFF then [Command.groupSetMode "stop"]
  else if hvac_mode = HVAC_MODE_HEAT then [Command.groupSetMode "heating"]
  else if hvac_mode = HVAC_MODE_COOL then [Command.groupSetMode "cooling"]
  else if hvac_mode = HVAC_MODE_DRY then [Command.groupSetMode "dehumidify"]
  else if hvac_mode = HVAC_MODE_FAN_ONLY then [Command.groupSetMode "ventilation"]
  else []

end AirzonecloudGroup

/-- The union of all vendor mode strings the device/group table maps to a
non-OFF standard mode. -/
def deviceGroupMappedModes : List String :=
  ["cooling", "air-cooling", "radiant-cooling", "combined-cooling",
   "heating", "air-heating", "radiant-heating", "combined-heating",
   "emergency-heating", "ventilation", "dehumidify"]

/-- The device/group translation table as a function of the mode string alone
(the shared body of both `hvac_mode` properties when the unit is on). -/
def deviceGroupModeLookup (mode : String) : String :=
  if mode ∈ ["cooling", "air-cooling", "radiant-cooling", "combined-cooling"] then
    HVAC_MODE_COOL
  else if mode ∈ ["heating", "air-heating", "radiant-heating", "combined-heating",
      "emergency-heating"] then
    HVAC_MODE_HEAT
  else if mode = "ventilation" then HVAC_MODE_FAN_ONLY
  else if mode = "dehumidify" then HVAC_MODE_DRY
  else HVAC_MODE_OFF

/-- Concrete sample objects used by witnesses and counterexamples. -/
def sampleGroup : AirzoneCloud.Group :=
  { id := "g1", name := "grp", is_on := true, mode := "ventilation",
    min_temperature := 15, max_temperature := 30 }

def sampleGroupOff : AirzoneCloud.Group :=
  { id := "g2", name := "grp2", is_on := false, mode := "heating",
    min_temperature := 15, max_temperature := 30 }

def sampleDevice : AirzoneCloud.Device :=
  { id := "d1", name := "dev", group := sampleGroup, is_on := true,
    mode := "air-cooling", current_temperature := some 21,
    target_temperature := some 22, step_temperature := some (1/2),
    min_temperature := 15, max_temperature := 30, current_humidity := some 40 }

def sampleDeviceOff : AirzoneCloud.Device :=
  { id := "d2", name := "dev2", group := sampleGroup, is_on := false,
    mode := "heating", current_temperature := some 21,
    target_temperature := some 22, step_temperature := some (1/2),
    min_temperature := 15, max_temperature := 30, current_humidity := some 40 }

/-- A device whose own temperature bounds differ from its parent group's. -/
def sampleDeviceBounds : AirzoneCloud.Device :=
  { id := "d3", name := "dev3",
    group :=
      { id := "g3", name := "grp3", is_on := true, mode := "heating",
        min_temperature := 18, max_temperature := 25 },
    is_on := true, mode := "heating", current_temperature := some 21,
    target_temperature := some 22, step_temperature := some (1/2),
    min_temperature := 10, max_temperature := 35, current_humidity := some 40 }

/-- The vendor command string that `set_hvac_mode` issues for each non-OFF
standard mode ("" for anything else), read off the `elif` chain. -/
def standardToVendorMode (hvac_mode : String) : String :=
  if hvac_mode = HVAC_MODE_HEAT then "heating"
  else if hvac_mode = HVAC_MODE_COOL then "cooling"
  else if hvac_mode = HVAC_MODE_DRY then "dehumidify"
  else if hvac_mode = HVAC_MODE_FAN_ONLY then "ventilation"
  else ""

/-- Modelled from the spec: the zone/system entity pair (first vendor API
generation, classes `AirzonecloudZone`/`AirzonecloudSystem`) is not present
under `src/`; its mode translation is taken from the spec's Zone/System
mapping table, gated on the unit reporting on exactly as the device/group
pair is. -/
def zoneSystemHvacMode (is_on : Bool) (mode : String) : String :=
  if is_on then
    if mode ∈ ["cool-air", "cool-radiant", "cool-both"] then HVAC_MODE_COOL
    else if mode ∈ ["heat-air", "heat-radiant", "heat-both"] then HVAC_MODE_HEAT
    else if mode = "ventilate" then HVAC_MODE_FAN_ONLY
    else if mode = "dehumidify" then HVAC_MODE_DRY
    else HVAC_MODE_OFF
  else HVAC_MODE_OFF

/-- The union of all vendor mode strings the zone/system table maps to a
non-OFF standard mode. -/
def zoneSystemMappedModes : List String :=
  ["cool-air", "cool-radiant", "cool-both", "heat-air", "heat-radiant", "heat-both",
   "ventilate", "dehumidify"]

/-- A vendor group together with its `devices` enumeration, as walked by
`setup_platform` (the leaf `Group` structure above keeps only the fields the
entity adapters read). -/
structure AirzoneCloud.ApiGroup where
  group : AirzoneCloud.Group
  devices : List AirzoneCloud.Device
deriving DecidableEq, Repr

/-- A vendor installation: its `groups` enumeration. -/
structure AirzoneCloud.Installation where
  groups : List AirzoneCloud.ApiGroup
deriving DecidableEq, Repr

/-- The vendor API client object: its `installations` enumeration. -/
structure AirzoneCloud.Api where
  installations : List AirzoneCloud.Installation
deriving DecidableEq, Repr

/-- Entities the platform can register. -/
inductive Entity where
  | group (g : AirzoneCloud.Group)
  | device (d : AirzoneCloud.Device)
deriving DecidableEq, Repr

def isGroupEntity : Entity → Bool
  | Entity.group _ => true
  | Entity.device _ => false

def isDeviceEntity : Entity → Bool
  | Entity.group _ => false
  | Entity.device _ => true

/-- Observable outcome of `setup_platform`: what was logged, what user
notifications were created, and the entity list passed to `add_entities`
(`none` when `add_entities` was never called). -/
structure SetupResult where
  logged_errors : List String
  notifications : List (String × String)
  added_entities : Option (List Entity)
deriving DecidableEq, Repr

/-- The entity list built by the nested loops of `setup_platform`: for each
installation, for each group, the group entity followed by one device entity
per device. -/
def entitiesOf (api : AirzoneCloud.Api) : List Entity :=
  api.installations.flatMap fun installation =>
    installation.groups.flatMap fun g =>
      Entity.group g.group :: g.devices.map Entity.device

def totalGroups (api : AirzoneCloud.Api) : ℕ :=
  (api.installations.flatMap AirzoneCloud.Installation.groups).length

def totalDevices (api : AirzoneCloud.Api) : ℕ :=
  (api.installations.flatMap fun installation =>
    installation.groups.flatMap AirzoneCloud.ApiGroup.devices).length

/-- `setup_platform`: credentials come from `config.get` (hence `Option`);
`construct` is the outcome of the `AirzoneCloud(username, password)`
constructor call, `Except.error` modelling a raised exception. -/
def setup_platform (username password : Option String)
    (construct : Except String AirzoneCloud.Api) : SetupResult :=
  match username, password with
  | some _, some _ =>
    match construct with
    | Except.error err =>
      { logged_errors := [err],
        notifications := [("Airzonecloud error", err)],
        added_entities := none }
    | Except.ok api =>
      { logged_errors := [], notifications := [],
        added_entities := some (entitiesOf api) }
  | _, _ =>
    { logged_errors := ["missing username or password config"],
      notifications := [], added_entities := none }

/-- A concrete API snapshot used by witnesses. -/
def sampleApi : AirzoneCloud.Api :=
  { installations :=
      [{ groups :=
          [{ group := sampleGroup,
             devices := [sampleDevice, sampleDeviceOff] }] }] }

lemma device_hvac_mode_eq_lookup (d : AirzoneCloud.Device) :
    AirzonecloudDevice.hvac_mode d =
      if d.is_on then deviceGroupModeLookup d.mode else HVAC_MODE_OFF := rfl

lemma group_hvac_mode_eq_lookup (g : AirzoneCloud.Group) :
    AirzonecloudGroup.hvac_mode g =
      if g.is_on then deviceGroupModeLookup g.mode else HVAC_MODE_OFF := rfl

/-- Full characterization of the device/group translation table. -/
lemma deviceGroupModeLookup_char (s : String) :
    (deviceGroupModeLookup s = HVAC_MODE_COOL ↔
      s ∈ ["cooling", "air-cooling", "radiant-cooling", "combined-cooling"]) ∧
    (deviceGroupModeLookup s = HVAC_MODE_HEAT ↔
      s ∈ ["heating", "air-heating", "radiant-heating", "combined-heating",
        "emergency-heating"]) ∧
    (deviceGroupModeLookup s = HVAC_MODE_FAN_ONLY ↔ s = "ventilation") ∧
    (deviceGroupModeLookup s = HVAC_MODE_DRY ↔ s = "dehumidify") ∧
    (deviceGroupModeLookup s = HVAC_MODE_OFF ↔ s ∉ deviceGroupMappedModes) := by
  by_cases h1 : s ∈ ["cooling", "air-cooling", "radiant-cooling", "combined-cooling"]
  · have h1' : s = "cooling" ∨ s = "air-cooling" ∨ s = "radiant-cooling" ∨
        s = "combined-cooling" := by simpa using h1
    rcases h1' with rfl | rfl | rfl | rfl <;> decide
  · by_cases h2 : s ∈ ["heating", "air-heating", "radiant-heating", "combined-heating",
        "emergency-heating"]
    · have h2' : s = "heating" ∨ s = "air-heating" ∨ s = "radiant-heating" ∨
          s = "combined-heating" ∨ s = "emergency-heating" := by simpa using h2
      rcases h2' with rfl | rfl | rfl | rfl | rfl <;> decide
    · by_cases h3 : s = "ventilation"
      · subst h3; decide
      · by_cases h4 : s = "dehumidify"
        · subst h4; decide
        · have e : deviceGroupModeLookup s = HVAC_MODE_OFF := by
            unfold deviceGroupModeLookup
            rw [if_neg h1, if_neg h2, if_neg h3, if_neg h4]
          have n1 : s ≠ "cooling" ∧ s ≠ "air-cooling" ∧ s ≠ "radiant-cooling" ∧
              s ≠ "combined-cooling" := by simpa [not_or] using h1
          have n2 : s ≠ "heating" ∧ s ≠ "air-heating" ∧ s ≠ "radiant-heating" ∧
              s ≠ "combined-heating" ∧ s ≠ "emergency-heating" := by simpa [not_or] using h2
          obtain ⟨na, nb, nc, nd⟩ := n1
          obtain ⟨ne', nf, ng, nh, ni⟩ := n2
          refine ⟨iff_of_false ?_ h1, iff_of_false ?_ h2, iff_of_false ?_ h3,
            iff_of_false ?_ h4, iff_of_true e ?_⟩
          · rw [e]; decide
          · rw [e]; decide
          · rw [e]; decide
          · rw [e]; decide
          · simp [deviceGroupMappedModes, na, nb, nc, nd, ne', nf, ng, nh, ni, h3, h4]

/-! ## Theorems -/

/-- C1: for a device or group reporting on, the derived standard mode is COOL
exactly on the four cooling strings, HEAT exactly on the five heating
strings, FAN_ONLY exactly on "ventilation", DRY exactly on "dehumidify",
and OFF on every other string. -/
theorem C1_device_group_mode_table (d : AirzoneCloud.Device) (g : AirzoneCloud.Group)
    (hd : d.is_on = true) (hg : g.is_on = true) :
    (AirzonecloudDevice.hvac_mode d = HVAC_MODE_COOL ↔
      d.mode ∈ ["cooling", "air-cooling", "radiant-cooling", "combined-cooling"]) ∧
    (AirzonecloudDevice.hvac_mode d = HVAC_MODE_HEAT ↔
      d.mode ∈ ["heating", "air-heating", "radiant-heating", "combined-heating",
        "emergency-heating"]) ∧
    (AirzonecloudDevice.hvac_mode d = HVAC_MODE_FAN_ONLY ↔ d.mode = "ventilation") ∧
    (AirzonecloudDevice.hvac_mode d = HVAC_MODE_DRY ↔ d.mode = "dehumidify") ∧
    (AirzonecloudDevice.hvac_mode d = HVAC_MODE_OFF ↔ d.mode ∉ deviceGroupMappedModes) ∧
    (AirzonecloudGroup.hvac_mode g = HVAC_MODE_COOL ↔
      g.mode ∈ ["cooling", "air-cooling", "radiant-cooling", "combined-cooling"]) ∧
    (AirzonecloudGroup.hvac_mode g = HVAC_MODE_HEAT ↔
      g.mode ∈ ["heating", "air-heating", "radiant-heating", "combined-heating",
        "emergency-heating"]) ∧
    (AirzonecloudGroup.hvac_mode g = HVAC_MODE_FAN_ONLY ↔ g.mode = "ventilation") ∧
    (AirzonecloudGroup.hvac_mode g = HVAC_MODE_DRY ↔ g.mode = "dehumidify") ∧
    (AirzonecloudGroup.hvac_mode g = HVAC_MODE_OFF ↔ g.mode ∉ deviceGroupMappedModes) := by
  have hD := deviceGroupModeLookup_char d.mode
  have hG := deviceGroupModeLookup_char g.mode
  rw [device_hvac_mode_eq_lookup, group_hvac_mode_eq_lookup, hd, hg]
  simp only [if_true]
  exact ⟨hD.1, hD.2.1, hD.2.2.1, hD.2.2.2.1, hD.2.2.2.2,
    hG.1, hG.2.1, hG.2.2.1, hG.2.2.2.1, hG.2.2.2.2⟩

/-- Witness for C1 at a concrete on device and on group. -/
theorem C1_device_group_mode_table_witness :
    AirzonecloudDevice.hvac_mode sampleDevice = HVAC_MODE_COOL ∧
    AirzonecloudGroup.hvac_mode sampleGroup = HVAC_MODE_FAN_ONLY :=
  ⟨(C1_device_group_mode_table sampleDevice sampleGroup rfl rfl).1.mpr (by decide),
   (C1_device_group_mode_table sampleDevice sampleGroup rfl rfl).2.2.2.2.2.2.2.1.mpr rfl⟩

/-- `roundHalfEven` is within one half of its argument. -/
lemma roundHalfEven_abs_le (q : ℚ) : |q - (roundHalfEven q : ℚ)| ≤ 1 / 2 := by
  have hfl : ((⌊q⌋ : ℤ) : ℚ) ≤ q := Int.floor_le q
  have hlt : q < ⌊q⌋ + 1 := Int.lt_floor_add_one q
  unfold roundHalfEven
  split_ifs with h1 h2 h3
  · rw [abs_of_nonneg (by linarith)]
    linarith
  · push_cast
    rw [abs_of_nonpos (by linarith)]
    linarith
  · rw [abs_of_nonneg (by linarith)]
    linarith
  · push_cast
    rw [abs_of_nonpos (by linarith)]
    linarith

/-- C2 fails on the code: at `sampleDeviceBounds` the reported bounds are the
leaf device's, which differ from the parent group's. -/
theorem C2_counterexample :
    AirzonecloudDevice.min_temp sampleDeviceBounds ≠
      sampleDeviceBounds.group.min_temperature ∧
    AirzonecloudDevice.max_temp sampleDeviceBounds ≠
      sampleDeviceBounds.group.max_temperature := by
  constructor <;> decide

/-- C2 amended: `min_temp` and `max_temp` are read from the leaf device
object itself (`self._device.min_temperature` / `max_temperature`), not from
its parent group. -/
theorem C2_amended_bounds_from_leaf (d : AirzoneCloud.Device) :
    AirzonecloudDevice.min_temp d = d.min_temperature ∧
    AirzonecloudDevice.max_temp d = d.max_temperature := by
  constructor <;>
    simp [AirzonecloudDevice.min_temp, AirzonecloudDevice.max_temp,
      AirzonecloudDevice.temperature_unit, convert_temperature]

/-- C4: a device or group whose vendor object reports off derives mode OFF
regardless of the stored mode string. -/
theorem C4_off_forces_mode_off (d : AirzoneCloud.Device) (g : AirzoneCloud.Group)
    (hd : d.is_on = false) (hg : g.is_on = false) :
    AirzonecloudDevice.hvac_mode d = HVAC_MODE_OFF ∧
    AirzonecloudGroup.hvac_mode g = HVAC_MODE_OFF := by
  rw [device_hvac_mode_eq_lookup, group_hvac_mode_eq_lookup,
    hd, hg]
  simp

/-- Witness for C4 at a concrete off device and off group whose stored mode
is "heating". -/
theorem C4_off_forces_mode_off_witness :
    AirzonecloudDevice.hvac_mode sampleDeviceOff = HVAC_MODE_OFF ∧
    AirzonecloudGroup.hvac_mode sampleGroupOff = HVAC_MODE_OFF :=
  C4_off_forces_mode_off sampleDeviceOff sampleGroupOff rfl rfl

/-- C9: `set_temperature` with no temperature value issues no vendor command
(the underlying device is untouched). -/
theorem C9_missing_temperature_no_command (d : AirzoneCloud.Device) :
    AirzonecloudDevice.set_temperature d none = [] := rfl

/-- C5: `set_temperature` with a requested value issues exactly one command,
carrying the requested value rounded to one decimal place: a multiple of
1/10 within 1/20 of the request. -/
theorem C5_set_temperature_rounds (d : AirzoneCloud.Device) (t : ℚ) :
    AirzonecloudDevice.set_temperature d (some t) =
      [Command.deviceSetTemperature (pyRound1 t)] ∧
    (∃ k : ℤ, pyRound1 t = (k : ℚ) / 10) ∧
    |t - pyRound1 t| ≤ 1 / 20 := by
  refine ⟨rfl, ⟨roundHalfEven (t * 10), rfl⟩, ?_⟩
  have h := roundHalfEven_abs_le (t * 10)
  unfold pyRound1
  have e : t - (roundHalfEven (t * 10) : ℚ) / 10 =
      (t * 10 - (roundHalfEven (t * 10) : ℚ)) / 10 := by ring
  rw [e, abs_div]
  rw [show |(10 : ℚ)| = 10 by norm_num]
  linarith

/-- C3 fails on the code for groups: an off group receiving a non-OFF mode
gets only the mode command, with no prior turn-on. -/
theorem C3_counterexample :
    sampleGroupOff.is_on = false ∧
    AirzonecloudGroup.set_hvac_mode sampleGroupOff HVAC_MODE_HEAT =
      [Command.groupSetMode "heating"] ∧
    Command.groupTurnOn ∉ AirzonecloudGroup.set_hvac_mode sampleGroupOff HVAC_MODE_HEAT := by
  refine ⟨rfl, by decide, by decide⟩

/-- C3 amended: OFF issues exactly the dedicated stop command (`turn_off` on
a device, `set_mode "stop"` on a group) and nothing else; a non-OFF standard
mode on a device first turns it on when it was off and then issues the mode
command, while on a group it issues the mode command alone, with no
turn-on. -/
theorem C3_amended_command_sequences (m : String)
    (hm : m ∈ AIRZONECLOUD_HVAC_MODES) (hne : m ≠ HVAC_MODE_OFF) :
    (∀ d : AirzoneCloud.Device,
      AirzonecloudDevice.set_hvac_mode d HVAC_MODE_OFF = [Command.deviceTurnOff]) ∧
    (∀ g : AirzoneCloud.Group,
      AirzonecloudGroup.set_hvac_mode g HVAC_MODE_OFF = [Command.groupSetMode "stop"]) ∧
    (∀ d : AirzoneCloud.Device,
      AirzonecloudDevice.set_hvac_mode d m =
        (if d.is_on then [] else [Command.deviceTurnOn false]) ++
          [Command.groupSetMode (standardToVendorMode m)]) ∧
    (∀ g : AirzoneCloud.Group,
      AirzonecloudGroup.set_hvac_mode g m =
        [Command.groupSetMode (standardToVendorMode m)]) := by
  have hm' : m = "off" ∨ m = "heat" ∨ m = "cool" ∨ m = "dry" ∨ m = "fan_only" := by
    simpa [AIRZONECLOUD_HVAC_MODES, HVAC_MODE_OFF, HVAC_MODE_HEAT, HVAC_MODE_COOL,
      HVAC_MODE_DRY, HVAC_MODE_FAN_ONLY] using hm
  refine ⟨?_, ?_, ?_, ?_⟩
  · intro d
    simp [AirzonecloudDevice.set_hvac_mode]
  · intro g
    simp [AirzonecloudGroup.set_hvac_mode, HVAC_MODE_OFF]
  · intro d
    rcases hm' with rfl | rfl | rfl | rfl | rfl
    · exact absurd rfl hne
    all_goals
      cases hon : d.is_on <;>
        simp [AirzonecloudDevice.set_hvac_mode, standardToVendorMode, HVAC_MODE_OFF,
          HVAC_MODE_HEAT, HVAC_MODE_COOL, HVAC_MODE_DRY, HVAC_MODE_FAN_ONLY, hon]
  · intro g
    rcases hm' with rfl | rfl | rfl | rfl | rfl
    · exact absurd rfl hne
    all_goals
      simp [AirzonecloudGroup.set_hvac_mode, standardToVendorMode, HVAC_MODE_OFF,
        HVAC_MODE_HEAT, HVAC_MODE_COOL, HVAC_MODE_DRY, HVAC_MODE_FAN_ONLY]

/-- Witness for C3 amended: an off device asked for HEAT is turned on and
then given the mode command; a group asked for HEAT gets the mode command
alone. -/
theorem C3_amended_command_sequences_witness :
    AirzonecloudDevice.set_hvac_mode sampleDeviceOff HVAC_MODE_HEAT =
      [Command.deviceTurnOn false, Command.groupSetMode "heating"] ∧
    AirzonecloudGroup.set_hvac_mode sampleGroup HVAC_MODE_HEAT =
      [Command.groupSetMode "heating"] := by
  have h := C3_amended_command_sequences HVAC_MODE_HEAT (by decide) (by decide)
  refine ⟨?_, ?_⟩
  · have hd := h.2.2.1 sampleDeviceOff
    simpa [sampleDeviceOff, standardToVendorMode] using hd
  · have hg := h.2.2.2 sampleGroup
    simpa [standardToVendorMode] using hg

/-- C6: any vendor mode string issued as a `set_mode` command by
`set_hvac_mode` for a non-OFF standard mode maps back to that standard mode
under the forward device/group table when the unit reports on. -/
theorem C6_mode_roundtrip (d : AirzoneCloud.Device) (g : AirzoneCloud.Group)
    (m s : String)
    (hm : m ∈ [HVAC_MODE_HEAT, HVAC_MODE_COOL, HVAC_MODE_DRY, HVAC_MODE_FAN_ONLY]) :
    (Command.groupSetMode s ∈ AirzonecloudDevice.set_hvac_mode d m →
      AirzonecloudDevice.hvac_mode { d with is_on := true, mode := s } = m) ∧
    (Command.groupSetMode s ∈ AirzonecloudGroup.set_hvac_mode g m →
      AirzonecloudGroup.hvac_mode { g with is_on := true, mode := s } = m) := by
  have hm' : m = "heat" ∨ m = "cool" ∨ m = "dry" ∨ m = "fan_only" := by
    simpa [HVAC_MODE_HEAT, HVAC_MODE_COOL, HVAC_MODE_DRY, HVAC_MODE_FAN_ONLY] using hm
  constructor
  · intro hmem
    rcases hm' with rfl | rfl | rfl | rfl
    · have hs : s = "heating" := by
        cases hon : d.is_on <;>
          simpa [AirzonecloudDevice.set_hvac_mode, hon, HVAC_MODE_OFF, HVAC_MODE_HEAT,
            HVAC_MODE_COOL, HVAC_MODE_DRY, HVAC_MODE_FAN_ONLY] using hmem
      subst hs; rfl
    · have hs : s = "cooling" := by
        cases hon : d.is_on <;>
          simpa [AirzonecloudDevice.set_hvac_mode, hon, HVAC_MODE_OFF, HVAC_MODE_HEAT,
            HVAC_MODE_COOL, HVAC_MODE_DRY, HVAC_MODE_FAN_ONLY] using hmem
      subst hs; rfl
    · have hs : s = "dehumidify" := by
        cases hon : d.is_on <;>
          simpa [AirzonecloudDevice.set_hvac_mode, hon, HVAC_MODE_OFF, HVAC_MODE_HEAT,
            HVAC_MODE_COOL, HVAC_MODE_DRY, HVAC_MODE_FAN_ONLY] using hmem
      subst hs; rfl
    · have hs : s = "ventilation" := by
        cases hon : d.is_on <;>
          simpa [AirzonecloudDevice.set_hvac_mode, hon, HVAC_MODE_OFF, HVAC_MODE_HEAT,
            HVAC_MODE_COOL, HVAC_MODE_DRY, HVAC_MODE_FAN_ONLY] using hmem
      subst hs; rfl
  · intro hmem
    rcases hm' with rfl | rfl | rfl | rfl
    · have hs : s = "heating" := by
        simpa [AirzonecloudGroup.set_hvac_mode, HVAC_MODE_OFF, HVAC_MODE_HEAT,
          HVAC_MODE_COOL, HVAC_MODE_DRY, HVAC_MODE_FAN_ONLY] using hmem
      subst hs; rfl
    · have hs : s = "cooling" := by
        simpa [AirzonecloudGroup.set_hvac_mode, HVAC_MODE_OFF, HVAC_MODE_HEAT,
          HVAC_MODE_COOL, HVAC_MODE_DRY, HVAC_MODE_FAN_ONLY] using hmem
      subst hs; rfl
    · have hs : s = "dehumidify" := by
        simpa [AirzonecloudGroup.set_hvac_mode, HVAC_MODE_OFF, HVAC_MODE_HEAT,
          HVAC_MODE_COOL, HVAC_MODE_DRY, HVAC_MODE_FAN_ONLY] using hmem
      subst hs; rfl
    · have hs : s = "ventilation" := by
        simpa [AirzonecloudGroup.set_hvac_mode, HVAC_MODE_OFF, HVAC_MODE_HEAT,
          HVAC_MODE_COOL, HVAC_MODE_DRY, HVAC_MODE_FAN_ONLY] using hmem
      subst hs; rfl

/-- Witness for C6: HEAT issues "heating", which maps back to HEAT on an
on device and an on group. -/
theorem C6_mode_roundtrip_witness :
    AirzonecloudDevice.hvac_mode
      { sampleDevice with is_on := true, mode := "heating" } = HVAC_MODE_HEAT ∧
    AirzonecloudGroup.hvac_mode
      { sampleGroup with is_on := true, mode := "heating" } = HVAC_MODE_HEAT :=
  ⟨(C6_mode_roundtrip sampleDevice sampleGroup HVAC_MODE_HEAT "heating"
      (by decide)).1 (by decide),
   (C6_mode_roundtrip sampleDevice sampleGroup HVAC_MODE_HEAT "heating"
      (by decide)).2 (by decide)⟩

/-- C10: an unrecognized mode string makes a group issue no command at all,
and makes a device issue no mode and no turn-off command, only a turn-on
when it was off. -/
theorem C10_unknown_mode (m : String) (hm : m ∉ AIRZONECLOUD_HVAC_MODES) :
    (∀ g : AirzoneCloud.Group, AirzonecloudGroup.set_hvac_mode g m = []) ∧
    (∀ d : AirzoneCloud.Device,
      AirzonecloudDevice.set_hvac_mode d m =
        if d.is_on then [] else [Command.deviceTurnOn false]) := by
  have hm' : m ≠ "off" ∧ m ≠ "heat" ∧ m ≠ "cool" ∧ m ≠ "dry" ∧ m ≠ "fan_only" := by
    simpa [AIRZONECLOUD_HVAC_MODES, HVAC_MODE_OFF, HVAC_MODE_HEAT, HVAC_MODE_COOL,
      HVAC_MODE_DRY, HVAC_MODE_FAN_ONLY, not_or] using hm
  obtain ⟨n0, n1, n2, n3, n4⟩ := hm'
  constructor
  · intro g
    simp [AirzonecloudGroup.set_hvac_mode, HVAC_MODE_OFF, HVAC_MODE_HEAT,
      HVAC_MODE_COOL, HVAC_MODE_DRY, HVAC_MODE_FAN_ONLY, n0, n1, n2, n3, n4]
  · intro d
    cases hon : d.is_on <;>
      simp [AirzonecloudDevice.set_hvac_mode, HVAC_MODE_OFF, HVAC_MODE_HEAT,
        HVAC_MODE_COOL, HVAC_MODE_DRY, HVAC_MODE_FAN_ONLY, n0, n1, n2, n3, n4, hon]

/-- Witness for C10 at the unrecognized string "banana". -/
theorem C10_unknown_mode_witness :
    AirzonecloudGroup.set_hvac_mode sampleGroup "banana" = [] ∧
    AirzonecloudDevice.set_hvac_mode sampleDevice "banana" = [] := by
  have h := C10_unknown_mode "banana" (by decide)
  refine ⟨h.1 sampleGroup, ?_⟩
  have hd := h.2 sampleDevice
  simpa [sampleDevice] using hd

lemma isGroupEntity_group (g : AirzoneCloud.Group) :
    isGroupEntity (Entity.group g) = true := rfl

lemma isGroupEntity_device (d : AirzoneCloud.Device) :
    isGroupEntity (Entity.device d) = false := rfl

lemma isDeviceEntity_group (g : AirzoneCloud.Group) :
    isDeviceEntity (Entity.group g) = false := rfl

lemma isDeviceEntity_device (d : AirzoneCloud.Device) :
    isDeviceEntity (Entity.device d) = true := rfl

/-- One entity block per group contributes exactly one group entity. -/
lemma countP_group_blocks (gs : List AirzoneCloud.ApiGroup) :
    ((gs.flatMap fun g => Entity.group g.group :: g.devices.map Entity.device).countP
      fun e => isGroupEntity e) = gs.length := by
  induction gs with
  | nil => rfl
  | cons g t ih =>
    simp [List.flatMap_cons, List.countP_append, List.countP_cons, List.countP_map,
      Function.comp_def, isGroupEntity_group, isGroupEntity_device, ih]

/-- One entity block per group contributes one device entity per device. -/
lemma countP_device_blocks (gs : List AirzoneCloud.ApiGroup) :
    ((gs.flatMap fun g => Entity.group g.group :: g.devices.map Entity.device).countP
      fun e => isDeviceEntity e) = (gs.flatMap AirzoneCloud.ApiGroup.devices).length := by
  induction gs with
  | nil => rfl
  | cons g t ih =>
    simp [List.flatMap_cons, List.countP_append, List.countP_cons, List.countP_map,
      Function.comp_def, isDeviceEntity_group, isDeviceEntity_device, ih,
      List.length_append]

lemma countP_group_installations (insts : List AirzoneCloud.Installation) :
    ((insts.flatMap fun installation => installation.groups.flatMap fun g =>
        Entity.group g.group :: g.devices.map Entity.device).countP
      fun e => isGroupEntity e) =
      (insts.flatMap AirzoneCloud.Installation.groups).length := by
  induction insts with
  | nil => rfl
  | cons i t ih =>
    simp [List.flatMap_cons, List.countP_append, ih, countP_group_blocks,
      List.length_append]

lemma countP_device_installations (insts : List AirzoneCloud.Installation) :
    ((insts.flatMap fun installation => installation.groups.flatMap fun g =>
        Entity.group g.group :: g.devices.map Entity.device).countP
      fun e => isDeviceEntity e) =
      (insts.flatMap fun installation =>
        installation.groups.flatMap AirzoneCloud.ApiGroup.devices).length := by
  induction insts with
  | nil => rfl
  | cons i t ih =>
    simp [List.flatMap_cons, List.countP_append, ih, countP_device_blocks,
      List.length_append]

/-- C7: a failing vendor-client construction is logged, surfaced as a
"Airzonecloud error" notification, and aborts setup with no entities
registered; a successful construction registers exactly the enumeration
(one group entity per enumerated group, one device entity per enumerated
device) with no notification; and no other path ever creates a
notification. -/
theorem C7_setup_error_handling (u p e : String) (api : AirzoneCloud.Api) :
    (setup_platform (some u) (some p) (Except.error e) =
      { logged_errors := [e], notifications := [("Airzonecloud error", e)],
        added_entities := none }) ∧
    ((setup_platform (some u) (some p) (Except.ok api)).notifications = [] ∧
      (setup_platform (some u) (some p) (Except.ok api)).logged_errors = [] ∧
      (setup_platform (some u) (some p) (Except.ok api)).added_entities =
        some (entitiesOf api) ∧
      ((entitiesOf api).countP fun e' => isGroupEntity e') = totalGroups api ∧
      ((entitiesOf api).countP fun e' => isDeviceEntity e') = totalDevices api) ∧
    (∀ username password construct,
      (setup_platform username password construct).notifications = [] ∨
      ∃ err u' p', construct = Except.error err ∧
        username = some u' ∧ password = some p') := by
  refine ⟨rfl, ⟨rfl, rfl, rfl, ?_, ?_⟩, ?_⟩
  · obtain ⟨insts⟩ := api
    exact countP_group_installations insts
  · obtain ⟨insts⟩ := api
    exact countP_device_installations insts
  · intro username password construct
    rcases username with _ | u'
    · left; rfl
    rcases password with _ | p'
    · left; rfl
    rcases construct with err | api'
    · right; exact ⟨err, u', p', rfl, rfl, rfl⟩
    · left; rfl

/-- C8: the zone/system translation (modelled from the spec, the zone/system
classes being absent from the source tree) sends the three cool-* strings to
COOL, the three heat-* strings to HEAT, "ventilate" to FAN_ONLY,
"dehumidify" to DRY, everything else to OFF, and reports OFF whenever the
unit reports off. -/
theorem C8_zone_system_mode_table (s : String) :
    (zoneSystemHvacMode true s = HVAC_MODE_COOL ↔
      s ∈ ["cool-air", "cool-radiant", "cool-both"]) ∧
    (zoneSystemHvacMode true s = HVAC_MODE_HEAT ↔
      s ∈ ["heat-air", "heat-radiant", "heat-both"]) ∧
    (zoneSystemHvacMode true s = HVAC_MODE_FAN_ONLY ↔ s = "ventilate") ∧
    (zoneSystemHvacMode true s = HVAC_MODE_DRY ↔ s = "dehumidify") ∧
    (zoneSystemHvacMode true s = HVAC_MODE_OFF ↔ s ∉ zoneSystemMappedModes) ∧
    zoneSystemHvacMode false s = HVAC_MODE_OFF := by
  by_cases h1 : s ∈ ["cool-air", "cool-radiant", "cool-both"]
  · have h1' : s = "cool-air" ∨ s = "cool-radiant" ∨ s = "cool-both" := by
      simpa using h1
    rcases h1' with rfl | rfl | rfl <;> decide
  · by_cases h2 : s ∈ ["heat-air", "heat-radiant", "heat-both"]
    · have h2' : s = "heat-air" ∨ s = "heat-radiant" ∨ s = "heat-both" := by
        simpa using h2
      rcases h2' with rfl | rfl | rfl <;> decide
    · by_cases h3 : s = "ventilate"
      · subst h3; decide
      · by_cases h4 : s = "dehumidify"
        · subst h4; decide
        · have e : zoneSystemHvacMode true s = HVAC_MODE_OFF := by
            unfold zoneSystemHvacMode
            rw [if_pos rfl, if_neg h1, if_neg h2, if_neg h3, if_neg h4]
          have n1 : s ≠ "cool-air" ∧ s ≠ "cool-radiant" ∧ s ≠ "cool-both" := by
            simpa [not_or] using h1
          have n2 : s ≠ "heat-air" ∧ s ≠ "heat-radiant" ∧ s ≠ "heat-both" := by
            simpa [not_or] using h2
          obtain ⟨na, nb, nc⟩ := n1
          obtain ⟨nd, ne', nf⟩ := n2
          refine ⟨iff_of_false ?_ h1, iff_of_false ?_ h2, iff_of_false ?_ h3,
            iff_of_false ?_ h4, iff_of_true e ?_, rfl⟩
          · rw [e]; decide
          · rw [e]; decide
          · rw [e]; decide
          · rw [e]; decide
          · simp [zoneSystemMappedModes, na, nb, nc, nd, ne', nf, h3, h4]
